import Mathlib

/-!
Shallow embedding of `src/handball_expected_goals.py`.

Network I/O is modelled by passing the environment explicitly: the body a
HTTP GET would return is a parameter (an `Option` value, `none` meaning the
request failed), and the per-(team, season) statistics lookup is a function
`fetch : Int → Int → Option TeamStats` standing for `get_team_stats`
composed with the network.  Python `float` division on the integer fields is
modelled by exact division in `ℚ`; Python `None` by `Option`; the truthiness
of Python values is modelled explicitly where the code relies on it
(`x or y` chains, `if m.exp_goals_home`).
-/

namespace Handball

/-- The `TeamStats` dataclass (source lines 13–25). -/
structure TeamStats where
  team_id : Int
  name : String
  season_id : Int
  goals_scored : Int
  matches_played : Int
deriving Repr, DecidableEq

/-- The `TeamStats.goals_per_match` property: `None` when `matches_played <= 0`,
else `goals_scored / matches_played` (Python true division, modelled in `ℚ`). -/
def TeamStats.goals_per_match (s : TeamStats) : Option ℚ :=
  if s.matches_played ≤ 0 then none
  else some ((s.goals_scored : ℚ) / (s.matches_played : ℚ))

/-- The `MatchInfo` dataclass (source lines 28–37). -/
structure MatchInfo where
  event_id : Int
  start_timestamp : Int
  home_team_id : Int
  home_team_name : String
  away_team_id : Int
  away_team_name : String
  tournament_name : String
  season_id : Int
deriving Repr, DecidableEq

/-- The `MatchWithExpectedGoals` dataclass (source lines 40–47); the Python field
`match` is a Lean keyword, hence `match_info`. -/
structure MatchWithExpectedGoals where
  match_info : MatchInfo
  home_stats : Option TeamStats
  away_stats : Option TeamStats
  exp_goals_home : Option ℚ
  exp_goals_away : Option ℚ
  joint_expected_goals : Option ℚ
deriving Repr, DecidableEq

/-! ## HTTP fetch helper (`get_json`, source lines 50–59)

The network is a function `env : Nat → Option α` giving the outcome of the
`i`-th attempt (`none` = exception or non-200 status, `some body` = a 200
response with decoded body).  Besides its result the model records the
observable trace of events: each attempt made and each `time.sleep`. -/

/-- One observable event of `get_json`: an attempt with its outcome, or a
`time.sleep` of a given duration. -/
inductive FetchEvent (α : Type) where
  | attempt (outcome : Option α)
  | sleep (d : ℚ)
deriving Repr, DecidableEq

/-- The retry loop of `get_json`: `n` attempts remaining, next attempt index
`i`.  A successful attempt returns its body at once (no sleep after it); a
failed attempt sleeps and continues; an exhausted loop returns `none`. -/
def get_json_go {α : Type} (env : Nat → Option α) (slp : ℚ) :
    Nat → Nat → Option α × List (FetchEvent α)
  | 0, _ => (none, [])
  | n + 1, i =>
    match env i with
    | some body => (some body, [FetchEvent.attempt (some body)])
    | none =>
      let r := get_json_go env slp n (i + 1)
      (r.1, FetchEvent.attempt none :: FetchEvent.sleep slp :: r.2)

/-- Model of `get_json(url, params, retries, sleep)`: result and event trace. -/
def get_json {α : Type} (env : Nat → Option α) (retries : Nat) (slp : ℚ) :
    Option α × List (FetchEvent α) :=
  get_json_go env slp retries 0

/-- Default `retries=3` of `get_json`. -/
def default_retries : Nat := 3

/-- Default `sleep=0.5` of `get_json`. -/
def default_sleep : ℚ := 1 / 2

/-- The trace of a run in which every attempt fails: `n` failed attempts,
each followed by a sleep of `slp`. -/
def all_fail_trace (α : Type) (slp : ℚ) : Nat → List (FetchEvent α)
  | 0 => []
  | n + 1 => FetchEvent.attempt none :: FetchEvent.sleep slp :: all_fail_trace α slp n

/-- Number of attempts recorded in a trace. -/
def count_attempts {α : Type} (tr : List (FetchEvent α)) : Nat :=
  (tr.filter fun e => match e with
    | FetchEvent.attempt _ => true
    | FetchEvent.sleep _ => false).length

/-! ## Schedule retriever (`get_scheduled_events`, source lines 62–91)

The raw JSON is modelled by records with `Option` fields: an absent key is
`none`.  `dict.get(k, d)` becomes `Option.getD`; a bare `dict[k]` access whose
`KeyError` is caught by the surrounding `except KeyError: continue` becomes a
bind in the `Option` monad. -/

/-- A raw `homeTeam` / `awayTeam` object. -/
structure RawTeam where
  id : Option Int
  name : Option String
deriving Repr, DecidableEq

/-- A raw `season` object. -/
structure RawSeason where
  id : Option Int
deriving Repr, DecidableEq

/-- A raw `tournament` object. -/
structure RawTournament where
  name : Option String
deriving Repr, DecidableEq

/-- A raw schedule entry `ev`. -/
structure RawEvent where
  id : Option Int
  startTimestamp : Option Int
  homeTeam : Option RawTeam
  awayTeam : Option RawTeam
  tournament : Option RawTournament
  season : Option RawSeason
deriving Repr, DecidableEq

/-- The raw body of the scheduled-events endpoint. -/
structure RawScheduleResponse where
  events : Option (List RawEvent)
deriving Repr, DecidableEq

/-- The loop body of `get_scheduled_events` for one raw entry (source lines
69–89): skip when the season id is absent, build a `MatchInfo` otherwise,
skipping on any `KeyError` (= absent required field). -/
def parse_event (ev : RawEvent) : Option MatchInfo := do
  let season_id ← ev.season.bind RawSeason.id
  let event_id ← ev.id
  let ht ← ev.homeTeam
  let home_team_id ← ht.id
  let home_team_name ← ht.name
  let aw ← ev.awayTeam
  let away_team_id ← aw.id
  let away_team_name ← aw.name
  pure
    { event_id := event_id
      start_timestamp := ev.startTimestamp.getD 0
      home_team_id := home_team_id
      home_team_name := home_team_name
      away_team_id := away_team_id
      away_team_name := away_team_name
      tournament_name := (ev.tournament.bind RawTournament.name).getD "Unknown"
      season_id := season_id }

/-- Model of `get_scheduled_events`, given the body the fetch helper returned
(`none` = all retries failed, and an empty `events` key also yields `[]`). -/
def get_scheduled_events (resp : Option RawScheduleResponse) : List MatchInfo :=
  match resp with
  | none => []
  | some d =>
    match d.events with
    | none => []
    | some evs => evs.filterMap parse_event

/-- The raw entries carried by a schedule response (`[]` when absent). -/
def events_of (resp : Option RawScheduleResponse) : List RawEvent :=
  match resp with
  | none => []
  | some d => d.events.getD []

/-- Spec-side predicate: the entry carries a season identifier and every
required field (event id, home team id/name, away team id/name). -/
def has_required_fields (ev : RawEvent) : Bool :=
  (ev.season.bind RawSeason.id).isSome && ev.id.isSome &&
    (match ev.homeTeam with
     | some t => t.id.isSome && t.name.isSome
     | none => false) &&
    (match ev.awayTeam with
     | some t => t.id.isSome && t.name.isSome
     | none => false)

/-! ## Team statistics retriever (`get_team_stats`, source lines 93–122) -/

/-- The raw `statistics` sub-record, with all candidate field names. -/
structure RawStatistics where
  goalsScored : Option Int
  goalsFor : Option Int
  scored : Option Int
  matchesPlayed : Option Int
  played : Option Int
  games : Option Int
deriving Repr, DecidableEq

/-- The raw `team` sub-record. -/
structure RawTeamRecord where
  name : Option String
deriving Repr, DecidableEq

/-- The raw body of the team-statistics endpoint. -/
structure RawTeamStatsResponse where
  statistics : Option RawStatistics
  team : Option RawTeamRecord
deriving Repr, DecidableEq

/-- The empty `statistics` record (`data.get("statistics", {})` default). -/
def empty_statistics : RawStatistics :=
  { goalsScored := none, goalsFor := none, scored := none,
    matchesPlayed := none, played := none, games := none }

/-- Truthiness of a Python value `stats.get(k)`: `None` and `0` are falsy. -/
def truthy (x : Option Int) : Bool :=
  match x with
  | none => false
  | some n => n != 0

/-- The Python chain `a or b or ... or 0` over the listed candidates:
left-to-right, a falsy value (absent key or zero) falls through, and the
trailing literal `0` is the result when every candidate is falsy. -/
def resolve_field : List (Option Int) → Int
  | [] => 0
  | x :: rest => if truthy x then x.getD 0 else resolve_field rest

/-- Spec-side first-PRESENT-wins resolution: the first candidate that is
present wins, whatever its value; `0` only when none is present. -/
def resolve_first_present : List (Option Int) → Int
  | [] => 0
  | none :: rest => resolve_first_present rest
  | some v :: _ => v

/-- Spec-side first-present-AND-nonzero resolution (what the Python `or`
chain actually computes). -/
def first_nonzero : List (Option Int) → Int
  | [] => 0
  | none :: rest => first_nonzero rest
  | some v :: rest => if v = 0 then first_nonzero rest else v

/-- Model of `get_team_stats(team_id, season_id)` given the body the fetch helper
returned (`none` models both a failed fetch and a falsy body). -/
def get_team_stats (team_id season_id : Int) (resp : Option RawTeamStatsResponse) :
    Option TeamStats :=
  match resp with
  | none => none
  | some data =>
    let stats := data.statistics.getD empty_statistics
    some
      { team_id := team_id
        name := (data.team.bind RawTeamRecord.name).getD ("Team " ++ toString team_id)
        season_id := season_id
        goals_scored := resolve_field [stats.goalsScored, stats.goalsFor, stats.scored]
        matches_played := resolve_field [stats.matchesPlayed, stats.played, stats.games] }

/-! ## Match enrichment engine (`compute_expected_goals_for_matches`,
source lines 125–160)

The per-key network lookup is a function
`fetch : Int → Int → Option TeamStats` (what `get_team_stats(team, season)`
returns for that pair; the code always calls it with the key's components).
The `stats_cache` dict is an association list keyed by `(team_id, season_id)`;
besides the cache the model threads the list of keys actually fetched, which
is the observable network behaviour the cache claims speak about. -/

/-- A `stats_cache` key: `(team_id, season_id)`. -/
abbrev CacheKey := Int × Int

/-- The `stats_cache` dict: association list from key to the stored lookup
result (`some none` in the dict means "looked up, absent"). -/
abbrev Cache := List (CacheKey × Option TeamStats)

/-- Dict lookup: `none` when the key is not in the cache, `some v` when the
cache stores `v` (itself an `Option TeamStats`) for the key. -/
def cache_find : Cache → CacheKey → Option (Option TeamStats)
  | [], _ => none
  | (k, v) :: rest, key => if k = key then some v else cache_find rest key

/-- Model of `if key not in stats_cache: stats_cache[key] = get_team_stats(...)`
for one key, also recording the fetch in the log. -/
def ensure_cached (fetch : Int → Int → Option TeamStats)
    (st : Cache × List CacheKey) (k : CacheKey) : Cache × List CacheKey :=
  if (cache_find st.1 k).isSome then st
  else ((k, fetch k.1 k.2) :: st.1, st.2 ++ [k])

/-- The loop body of `compute_expected_goals_for_matches` for one match:
ensure both keys are cached, read the two stats back, and build the
`MatchWithExpectedGoals` (source lines 129–158).  Python's
`home_stats.goals_per_match if home_stats else None` is `Option.bind`
(a `TeamStats` instance is always truthy). -/
def process_match (fetch : Int → Int → Option TeamStats)
    (st : Cache × List CacheKey) (m : MatchInfo) :
    (Cache × List CacheKey) × MatchWithExpectedGoals :=
  let key_home : CacheKey := (m.home_team_id, m.season_id)
  let key_away : CacheKey := (m.away_team_id, m.season_id)
  let st1 := ensure_cached fetch st key_home
  let st2 := ensure_cached fetch st1 key_away
  let home_stats := (cache_find st2.1 key_home).join
  let away_stats := (cache_find st2.1 key_away).join
  let exp_home := home_stats.bind TeamStats.goals_per_match
  let exp_away := away_stats.bind TeamStats.goals_per_match
  let joint :=
    match exp_home, exp_away with
    | some a, some b => some (a + b)
    | _, _ => none
  (st2,
    { match_info := m
      home_stats := home_stats
      away_stats := away_stats
      exp_goals_home := exp_home
      exp_goals_away := exp_away
      joint_expected_goals := joint })

/-- The whole loop, threading cache and fetch log. -/
def compute_go (fetch : Int → Int → Option TeamStats) :
    List MatchInfo → Cache × List CacheKey →
    List MatchWithExpectedGoals × (Cache × List CacheKey)
  | [], st => ([], st)
  | m :: rest, st =>
    let p := process_match fetch st m
    let r := compute_go fetch rest p.1
    (p.2 :: r.1, r.2)

/-- Model of `compute_expected_goals_for_matches(matches)`: the returned list. -/
def compute_expected_goals_for_matches (fetch : Int → Int → Option TeamStats)
    (ms : List MatchInfo) : List MatchWithExpectedGoals :=
  (compute_go fetch ms ([], [])).1

/-- The keys actually fetched over the network during a run, in order. -/
def compute_fetch_log (fetch : Int → Int → Option TeamStats)
    (ms : List MatchInfo) : List CacheKey :=
  (compute_go fetch ms ([], [])).2.2

/-- The final state of `stats_cache` after a run. -/
def compute_final_cache (fetch : Int → Int → Option TeamStats)
    (ms : List MatchInfo) : Cache :=
  (compute_go fetch ms ([], [])).2.1

/-- What one match enriches to, expressed directly on the lookup function;
the cache lemmas show the loop computes exactly this for every match. -/
def enrich (fetch : Int → Int → Option TeamStats) (m : MatchInfo) :
    MatchWithExpectedGoals :=
  let home_stats := fetch m.home_team_id m.season_id
  let away_stats := fetch m.away_team_id m.season_id
  let exp_home := home_stats.bind TeamStats.goals_per_match
  let exp_away := away_stats.bind TeamStats.goals_per_match
  { match_info := m
    home_stats := home_stats
    away_stats := away_stats
    exp_goals_home := exp_home
    exp_goals_away := exp_away
    joint_expected_goals :=
      match exp_home, exp_away with
      | some a, some b => some (a + b)
      | _, _ => none }

/-! ## Exporters (source lines 163–221)

Modelled up to file I/O: `export_to_csv` is the list of rows the `csv.writer`
is given (header first), each row a list of cell strings; `export_to_json`
is the list of objects serialised. -/

/-- Fixed-point two-decimal rendering of a rational, modelling Python's
`f"{x:.2f}"`: the value scaled by 100 and rounded to the nearest integer
(computed on the exact fraction as `⌊(200·num + den) / (2·den)⌋`), printed
with two fractional digits. -/
def fmt2 (q : ℚ) : String :=
  let n : Int := Int.fdiv (200 * q.num + (q.den : Int)) (2 * (q.den : Int))
  let sign := if n < 0 then "-" else ""
  let a := n.natAbs
  let frac := a % 100
  sign ++ toString (a / 100) ++ "." ++
    (if frac < 10 then "0" ++ toString frac else toString frac)

/-- The per-team expected-goals CSV cell:
`f"{x:.2f}" if x else ""` — `None` and `0.0` are both falsy. -/
def truthy_cell (x : Option ℚ) : String :=
  match x with
  | none => ""
  | some q => if q = 0 then "" else fmt2 q

/-- An optional integer CSV cell: the number, or the empty cell when the
stats record is absent. -/
def int_cell (x : Option Int) : String :=
  match x with
  | none => ""
  | some n => toString n

/-- The CSV header row (source lines 168–179). -/
def csv_header : List String :=
  ["Home Team", "Away Team", "Tournament",
   "Expected Goals Home", "Expected Goals Away", "Joint Expected Goals",
   "Home Goals Scored", "Home Matches Played",
   "Away Goals Scored", "Away Matches Played"]

/-- The CSV data row written for a match (only ever reached when
`joint_expected_goals` is present; the joint cell formats that value). -/
def csv_row (m : MatchWithExpectedGoals) : List String :=
  [m.match_info.home_team_name,
   m.match_info.away_team_name,
   m.match_info.tournament_name,
   truthy_cell m.exp_goals_home,
   truthy_cell m.exp_goals_away,
   fmt2 (m.joint_expected_goals.getD 0),
   int_cell (m.home_stats.map TeamStats.goals_scored),
   int_cell (m.home_stats.map TeamStats.matches_played),
   int_cell (m.away_stats.map TeamStats.goals_scored),
   int_cell (m.away_stats.map TeamStats.matches_played)]

/-- Model of `export_to_csv`: all rows handed to the CSV writer, header included;
matches with an absent joint value are skipped (source lines 181–183). -/
def export_to_csv (ms : List MatchWithExpectedGoals) : List (List String) :=
  csv_header ::
    ms.filterMap fun m =>
      match m.joint_expected_goals with
      | none => none
      | some _ => some (csv_row m)

/-- One object of the JSON output (source lines 207–218). -/
structure JsonRow where
  home_team : String
  away_team : String
  tournament : String
  exp_goals_home : Option ℚ
  exp_goals_away : Option ℚ
  joint_expected_goals : Option ℚ
  home_goals_scored : Option Int
  home_matches_played : Option Int
  away_goals_scored : Option Int
  away_matches_played : Option Int
deriving Repr, DecidableEq

/-- The JSON object built for a match (`None` fields serialise as `null`). -/
def json_row (m : MatchWithExpectedGoals) : JsonRow :=
  { home_team := m.match_info.home_team_name
    away_team := m.match_info.away_team_name
    tournament := m.match_info.tournament_name
    exp_goals_home := m.exp_goals_home
    exp_goals_away := m.exp_goals_away
    joint_expected_goals := m.joint_expected_goals
    home_goals_scored := m.home_stats.map TeamStats.goals_scored
    home_matches_played := m.home_stats.map TeamStats.matches_played
    away_goals_scored := m.away_stats.map TeamStats.goals_scored
    away_matches_played := m.away_stats.map TeamStats.matches_played }

/-- Model of `export_to_json`: the array of objects serialised; matches with an
absent joint value are skipped (source lines 203–205). -/
def export_to_json (ms : List MatchWithExpectedGoals) : List JsonRow :=
  ms.filterMap fun m =>
    match m.joint_expected_goals with
    | none => none
    | some _ => some (json_row m)

/-! ## Invariants and concrete fixtures -/

/-- Every value stored in the cache is what the network lookup returns for
its key (the loop only ever stores `get_team_stats(key...)` under `key`). -/
def CacheFaithful (fetch : Int → Int → Option TeamStats) (c : Cache) : Prop :=
  ∀ p ∈ c, p.2 = fetch p.1.1 p.1.2

/-- The fetch log has no repeats and every fetched key is in the cache. -/
def LogInv (c : Cache) (log : List CacheKey) : Prop :=
  log.Nodup ∧ ∀ k ∈ log, (cache_find c k).isSome

/-- A lookup environment in which every team has 10 goals over 5 matches. -/
def fetch_ten_five : Int → Int → Option TeamStats := fun t s =>
  some { team_id := t, name := "T", season_id := s,
         goals_scored := 10, matches_played := 5 }

/-- A concrete scheduled match. -/
def match_ab : MatchInfo :=
  { event_id := 11, start_timestamp := 0,
    home_team_id := 1, home_team_name := "A",
    away_team_id := 2, away_team_name := "B",
    tournament_name := "League", season_id := 100 }

/-- A network on which every attempt fails. -/
def env_fail : Nat → Option Unit := fun _ => none

/-- A network failing on attempt 0 and succeeding on attempt 1. -/
def env_succ : Nat → Option Nat := fun i => if i = 1 then some 42 else none

/-- An enriched match whose home expected goals is exactly `0`. -/
def zero_home_match : MatchWithExpectedGoals :=
  { match_info := match_ab
    home_stats := some { team_id := 1, name := "A", season_id := 100,
                         goals_scored := 0, matches_played := 5 }
    away_stats := some { team_id := 2, name := "B", season_id := 100,
                         goals_scored := 15, matches_played := 5 }
    exp_goals_home := some 0
    exp_goals_away := some 3
    joint_expected_goals := some 3 }

/-- A statistics response carrying `goalsScored = 0` (present!) alongside
`goalsFor = 7`. -/
def zero_scored_record : RawTeamStatsResponse :=
  { statistics := some
      { goalsScored := some 0
        goalsFor := some 7
        scored := none
        matchesPlayed := some 4
        played := none
        games := none }
    team := none }

/-! # Theorems -/

/-- C2: `goals_per_match` is `None` exactly when `matches_played ≤ 0`, and is
the exact quotient `goals_scored / matches_played` when `matches_played > 0`. -/
theorem goals_per_match_correct (s : TeamStats) :
    (s.matches_played ≤ 0 → s.goals_per_match = none) ∧
    (0 < s.matches_played →
      s.goals_per_match = some ((s.goals_scored : ℚ) / (s.matches_played : ℚ))) := by
  refine ⟨fun h => ?_, fun h => ?_⟩
  · rw [TeamStats.goals_per_match, if_pos h]
  · rw [TeamStats.goals_per_match, if_neg (by omega)]

/-- Witness for C2 at a concrete `TeamStats` (10 goals over 5 matches). -/
theorem goals_per_match_correct_witness :
    ({ team_id := 1, name := "A", season_id := 2, goals_scored := 10,
       matches_played := 5 } : TeamStats).goals_per_match = some 2 := by
  rw [(goals_per_match_correct
    { team_id := 1, name := "A", season_id := 2, goals_scored := 10,
      matches_played := 5 }).2 (by decide)]
  norm_num

/-- C5: the schedule retriever is the total function filtering the raw
entries through `parse_event`, and `parse_event` succeeds exactly on entries
carrying a season id and all required fields (event id, home/away team
id and name); all other entries are skipped. -/
theorem scheduled_events_skip_invalid :
    (∀ resp : Option RawScheduleResponse,
      get_scheduled_events resp = (events_of resp).filterMap parse_event) ∧
    (∀ ev : RawEvent, (parse_event ev).isSome = has_required_fields ev) := by
  constructor
  · intro resp
    match resp with
    | none => rfl
    | some d =>
      match h : d.events with
      | none => simp [get_scheduled_events, events_of, h]
      | some evs => simp [get_scheduled_events, events_of, h]
  · intro ev
    rcases ev with ⟨_ | ei, ts, _ | ⟨_ | hti, _ | htn⟩, _ | ⟨_ | ati, _ | atn⟩,
      tour, _ | ⟨_ | sid⟩⟩ <;> rfl

/-- Filtering on the joint value and then building a row is the same as the
exporters' skip-and-build loop. -/
theorem filterMap_joint_eq {β : Type} (f : MatchWithExpectedGoals → β)
    (ms : List MatchWithExpectedGoals) :
    (ms.filterMap fun m =>
        match m.joint_expected_goals with
        | none => none
        | some _ => some (f m)) =
      (ms.filter fun m => m.joint_expected_goals.isSome).map f := by
  induction ms with
  | nil => rfl
  | cons m rest ih =>
    cases h : m.joint_expected_goals <;>
      simp [List.filterMap_cons, List.filter_cons, h, ih]

/-- C3: both exporters emit exactly one row/object per match whose joint
expected goals is defined (in input order), so a match with an undefined
joint value appears in neither output. -/
theorem exporters_skip_undefined_joint (ms : List MatchWithExpectedGoals) :
    export_to_csv ms =
      csv_header :: (ms.filter fun m => m.joint_expected_goals.isSome).map csv_row ∧
    export_to_json ms =
      (ms.filter fun m => m.joint_expected_goals.isSome).map json_row := by
  constructor
  · simp only [export_to_csv]
    rw [filterMap_joint_eq]
  · simp only [export_to_json]
    rw [filterMap_joint_eq]

/-- C9: in the CSV exporter a per-team expected-goals value of exactly `0` is
rendered as an empty cell (truthiness), while any nonzero defined value is
rendered with the two-decimal format; `0` itself would render as "0.00", and
every data row of the output is `csv_row` of a joint-defined match. -/
theorem csv_zero_rendered_empty :
    (∀ m : MatchWithExpectedGoals,
      (m.exp_goals_home = some 0 → (csv_row m)[3]? = some "") ∧
      (∀ q : ℚ, m.exp_goals_home = some q → q ≠ 0 →
        (csv_row m)[3]? = some (fmt2 q)) ∧
      (m.exp_goals_away = some 0 → (csv_row m)[4]? = some "") ∧
        (∀ q : ℚ, m.exp_goals_away = some q → q ≠ 0 →
        (csv_row m)[4]? = some (fmt2 q))) ∧
    fmt2 0 = "0.00" ∧
    (∀ ms : List MatchWithExpectedGoals,
      export_to_csv ms =
        csv_header ::
          (ms.filter fun m => m.joint_expected_goals.isSome).map csv_row) := by
  refine ⟨fun m => ⟨fun h => ?_, fun q hq hq0 => ?_, fun h => ?_, fun q hq hq0 => ?_⟩,
    ?_, fun ms => ?_⟩
  · simp [csv_row, truthy_cell, h]
  · simp [csv_row, truthy_cell, hq, hq0]
  · simp [csv_row, truthy_cell, h]
  · simp [csv_row, truthy_cell, hq, hq0]
  · decide
  · simp only [export_to_csv]
    rw [filterMap_joint_eq]

/-- Witness for C9: the concrete match whose home expected goals is exactly
`0` gets an empty fourth cell, and a nonzero value a formatted one. -/
theorem csv_zero_rendered_empty_witness :
    (csv_row zero_home_match)[3]? = some "" ∧
    (csv_row zero_home_match)[4]? = some (fmt2 3) := by
  constructor
  · exact (csv_zero_rendered_empty.1 zero_home_match).1 rfl
  · exact (csv_zero_rendered_empty.1 zero_home_match).2.2.2 3 rfl (by norm_num)

/-- C6 counterexample: on a record carrying `goalsScored = 0` (present) and
`goalsFor = 7`, the code resolves goals-scored to `7`, whereas
first-present-wins resolution of the same candidate chain yields `0` — so
resolution is not first-present-wins, and zero-defaulting does not only
happen when every candidate is absent. -/
theorem get_team_stats_not_first_present :
    (get_team_stats 1 2 (some zero_scored_record)).map TeamStats.goals_scored =
      some 7 ∧
    resolve_first_present [some 0, some 7, (none : Option Int)] = 0 := by
  constructor <;> rfl

/-- C6 amended: the `or` chains resolve goals-scored (and matches-played) by
first-present-AND-NONZERO-wins — a present zero value falls through like an
absent one — defaulting to `0` when every candidate is absent or zero; in
particular a record carrying a nonzero `goalsFor` instead of `goalsScored`
still resolves goals-scored from the alias. -/
theorem get_team_stats_first_truthy :
    (∀ l : List (Option Int), resolve_field l = first_nonzero l) ∧
    (∀ (t s : Int) (data : RawTeamStatsResponse),
      (get_team_stats t s (some data)).map TeamStats.goals_scored =
        some (first_nonzero [(data.statistics.getD empty_statistics).goalsScored,
          (data.statistics.getD empty_statistics).goalsFor,
          (data.statistics.getD empty_statistics).scored]) ∧
      (get_team_stats t s (some data)).map TeamStats.matches_played =
        some (first_nonzero [(data.statistics.getD empty_statistics).matchesPlayed,
          (data.statistics.getD empty_statistics).played,
          (data.statistics.getD empty_statistics).games])) ∧
    (∀ (t s g : Int), g ≠ 0 →
      (get_team_stats t s (some
        { statistics := some { empty_statistics with goalsFor := some g }
          team := none })).map TeamStats.goals_scored = some g) := by
  have hrf : ∀ l : List (Option Int), resolve_field l = first_nonzero l := by
    intro l
    induction l with
    | nil => rfl
    | cons x rest ih =>
      cases x with
      | none => simpa [resolve_field, first_nonzero, truthy] using ih
      | some v =>
        by_cases hv : v = 0 <;>
          simp [resolve_field, first_nonzero, truthy, hv, ih]
  refine ⟨hrf, fun t s data => ⟨?_, ?_⟩, fun t s g hg => ?_⟩
  · simp [get_team_stats, hrf]
  · simp [get_team_stats, hrf]
  · simp [get_team_stats, hrf, first_nonzero, empty_statistics, hg]

/-- Witness for C6's amended statement: a record carrying only
`goalsFor = 9` resolves goals-scored to `9`. -/
theorem get_team_stats_first_truthy_witness :
    (get_team_stats 1 2 (some
      { statistics := some { empty_statistics with goalsFor := some 9 }
        team := none })).map TeamStats.goals_scored = some 9 :=
  get_team_stats_first_truthy.2.2 1 2 9 (by decide)

/-! ### Cache lemmas -/

/-- A value found in a faithful cache is what the lookup returns for its key. -/
theorem cache_find_faithful {fetch : Int → Int → Option TeamStats} :
    ∀ {c : Cache} {k : CacheKey} {v : Option TeamStats},
      CacheFaithful fetch c → cache_find c k = some v → v = fetch k.1 k.2 := by
  intro c
  induction c with
  | nil => intro k v _ h; simp [cache_find] at h
  | cons p rest ih =>
    intro k v hc h
    obtain ⟨k', v'⟩ := p
    rw [cache_find] at h
    split at h
    next hk =>
      injection h with h2
      have hm := hc (k', v') (List.mem_cons_self _ _)
      rw [← h2, ← hk]
      exact hm
    next hk =>
      exact ih (fun p hp => hc p (List.mem_cons_of_mem _ hp)) h

/-- Running `ensure_cached` keeps the cache faithful. -/
theorem ensure_cached_faithful {fetch : Int → Int → Option TeamStats}
    {st : Cache × List CacheKey} {k : CacheKey} (hc : CacheFaithful fetch st.1) :
    CacheFaithful fetch (ensure_cached fetch st k).1 := by
  unfold ensure_cached
  split
  · exact hc
  · intro p hp
    rcases List.mem_cons.mp hp with h | h
    · subst h; rfl
    · exact hc p h

/-- After `ensure_cached` the key is stored with exactly the lookup's answer
(including a stored `none` when the lookup found nothing). -/
theorem ensure_cached_find_self {fetch : Int → Int → Option TeamStats}
    {st : Cache × List CacheKey} {k : CacheKey} (hc : CacheFaithful fetch st.1) :
    cache_find (ensure_cached fetch st k).1 k = some (fetch k.1 k.2) := by
  unfold ensure_cached
  split
  next h =>
    obtain ⟨v, hv⟩ := Option.isSome_iff_exists.mp h
    rw [hv, cache_find_faithful hc hv]
  next h =>
    simp [cache_find]

/-- Running `ensure_cached` never overwrites an existing entry. -/
theorem ensure_cached_find_mono {fetch : Int → Int → Option TeamStats}
    {st : Cache × List CacheKey} {k k' : CacheKey} {v : Option TeamStats}
    (h : cache_find st.1 k' = some v) :
    cache_find (ensure_cached fetch st k).1 k' = some v := by
  unfold ensure_cached
  split
  · exact h
  next hn =>
    rw [cache_find]
    split
    next hk => subst hk; rw [h] at hn; simp at hn
    next => exact h

/-- Under a faithful cache, the loop body returns `enrich` of the match and
the expected cache/log state. -/
theorem process_match_snd {fetch : Int → Int → Option TeamStats}
    {st : Cache × List CacheKey} {m : MatchInfo} (hc : CacheFaithful fetch st.1) :
    (process_match fetch st m).2 = enrich fetch m := by
  have h1 : CacheFaithful fetch
      (ensure_cached fetch st (m.home_team_id, m.season_id)).1 :=
    ensure_cached_faithful hc
  have hfh : cache_find
      (ensure_cached fetch (ensure_cached fetch st (m.home_team_id, m.season_id))
        (m.away_team_id, m.season_id)).1 (m.home_team_id, m.season_id) =
      some (fetch m.home_team_id m.season_id) :=
    ensure_cached_find_mono (ensure_cached_find_self hc)
  have hfa : cache_find
      (ensure_cached fetch (ensure_cached fetch st (m.home_team_id, m.season_id))
        (m.away_team_id, m.season_id)).1 (m.away_team_id, m.season_id) =
      some (fetch m.away_team_id m.season_id) :=
    ensure_cached_find_self h1
  unfold process_match enrich
  simp only [hfh, hfa]
  rfl

/-- The loop body keeps the cache faithful. -/
theorem process_match_fst_faithful {fetch : Int → Int → Option TeamStats}
    {st : Cache × List CacheKey} {m : MatchInfo} (hc : CacheFaithful fetch st.1) :
    CacheFaithful fetch (process_match fetch st m).1.1 :=
  ensure_cached_faithful (ensure_cached_faithful hc)

/-- Starting from a faithful cache, the enrichment loop returns exactly
`enrich` of every input match, in order. -/
theorem compute_go_fst {fetch : Int → Int → Option TeamStats} :
    ∀ (ms : List MatchInfo) (st : Cache × List CacheKey),
      CacheFaithful fetch st.1 →
      (compute_go fetch ms st).1 = ms.map (enrich fetch) := by
  intro ms
  induction ms with
  | nil => intro st _; rfl
  | cons m rest ih =>
    intro st hc
    simp only [compute_go, List.map_cons]
    rw [process_match_snd hc, ih _ (process_match_fst_faithful hc)]

/-- Computing `compute_expected_goals_for_matches` equals the per-match enrichment map:
the cache changes which keys are fetched, never the values produced. -/
theorem compute_eq_map (fetch : Int → Int → Option TeamStats)
    (ms : List MatchInfo) :
    compute_expected_goals_for_matches fetch ms = ms.map (enrich fetch) :=
  compute_go_fst ms ([], []) (by intro p hp; simp at hp)

/-- The joint field of an enriched match is the sum-match on its two
per-team fields. -/
theorem enrich_joint (fetch : Int → Int → Option TeamStats) (m : MatchInfo) :
    (enrich fetch m).joint_expected_goals =
      match (enrich fetch m).exp_goals_home, (enrich fetch m).exp_goals_away with
      | some a, some b => some (a + b)
      | _, _ => none := rfl

/-- The real retriever stamps the queried team and season ids into every
record it returns, so any lookup built from `get_team_stats` satisfies the
id-faithfulness hypothesis of the enrichment theorems. -/
theorem get_team_stats_ids (t s : Int) (resp : Option RawTeamStatsResponse)
    (ts : TeamStats) (h : get_team_stats t s resp = some ts) :
    ts.team_id = t ∧ ts.season_id = s := by
  cases resp with
  | none => simp [get_team_stats] at h
  | some data =>
    rw [get_team_stats] at h
    injection h with h
    rw [← h]
    exact ⟨rfl, rfl⟩

/-- A defined `goals_per_match` through `Option.bind` pins the stats record:
present, positive matches played, and the value is the exact quotient. -/
theorem bind_gpm_some {o : Option TeamStats} {a : ℚ}
    (h : o.bind TeamStats.goals_per_match = some a) :
    ∃ ts : TeamStats, o = some ts ∧ 0 < ts.matches_played ∧
      a = (ts.goals_scored : ℚ) / (ts.matches_played : ℚ) := by
  cases o with
  | none => simp at h
  | some ts =>
    have h2 : ts.goals_per_match = some a := h
    rw [TeamStats.goals_per_match] at h2
    split at h2
    · exact absurd h2 (by simp)
    next hmp =>
      injection h2 with h2
      exact ⟨ts, rfl, by omega, h2.symm⟩

/-- C8: the enrichment engine yields exactly one result per input match and
preserves input order (the i-th output wraps the i-th input). -/
theorem compute_one_result_per_match (fetch : Int → Int → Option TeamStats)
    (ms : List MatchInfo) :
    (compute_expected_goals_for_matches fetch ms).length = ms.length ∧
    (compute_expected_goals_for_matches fetch ms).map
      MatchWithExpectedGoals.match_info = ms := by
  rw [compute_eq_map]
  refine ⟨by simp, ?_⟩
  rw [List.map_map]
  have h : MatchWithExpectedGoals.match_info ∘ enrich fetch = id := by
    funext m; rfl
  rw [h, List.map_id]

/-- C1: for every output of the enrichment engine, the joint value is defined
iff both per-team values are, equals their sum when defined, and each defined
per-team value is goals scored over matches played of the present stats
record for that team and season. -/
theorem joint_expected_goals_invariant (fetch : Int → Int → Option TeamStats)
    (hf : ∀ (t s : Int) (ts : TeamStats), fetch t s = some ts →
      ts.team_id = t ∧ ts.season_id = s)
    (ms : List MatchInfo) (r : MatchWithExpectedGoals)
    (hr : r ∈ compute_expected_goals_for_matches fetch ms) :
    (r.joint_expected_goals.isSome ↔
      (r.exp_goals_home.isSome ∧ r.exp_goals_away.isSome)) ∧
    (∀ a b : ℚ, r.exp_goals_home = some a → r.exp_goals_away = some b →
      r.joint_expected_goals = some (a + b)) ∧
    (∀ a : ℚ, r.exp_goals_home = some a → ∃ ts : TeamStats,
      r.home_stats = some ts ∧ ts.team_id = r.match_info.home_team_id ∧
      ts.season_id = r.match_info.season_id ∧ 0 < ts.matches_played ∧
      a = (ts.goals_scored : ℚ) / (ts.matches_played : ℚ)) ∧
    (∀ b : ℚ, r.exp_goals_away = some b → ∃ ts : TeamStats,
      r.away_stats = some ts ∧ ts.team_id = r.match_info.away_team_id ∧
      ts.season_id = r.match_info.season_id ∧ 0 < ts.matches_played ∧
      b = (ts.goals_scored : ℚ) / (ts.matches_played : ℚ)) := by
  rw [compute_eq_map] at hr
  obtain ⟨m, hm, rfl⟩ := List.mem_map.mp hr
  refine ⟨?_, ?_, ?_, ?_⟩
  · rw [enrich_joint]
    cases hh : (enrich fetch m).exp_goals_home <;>
      cases ha : (enrich fetch m).exp_goals_away <;> simp
  · intro a b hha hhb
    rw [enrich_joint, hha, hhb]
  · intro a hha
    have hbind : (fetch m.home_team_id m.season_id).bind TeamStats.goals_per_match
        = some a := hha
    obtain ⟨ts, hts, hmp, hval⟩ := bind_gpm_some hbind
    exact ⟨ts, hts, (hf _ _ _ hts).1, (hf _ _ _ hts).2, hmp, hval⟩
  · intro b hhb
    have hbind : (fetch m.away_team_id m.season_id).bind TeamStats.goals_per_match
        = some b := hhb
    obtain ⟨ts, hts, hmp, hval⟩ := bind_gpm_some hbind
    exact ⟨ts, hts, (hf _ _ _ hts).1, (hf _ _ _ hts).2, hmp, hval⟩

/-- Witness for C1 in the all-teams-score-10-in-5 environment: the joint
expected goals of the concrete match is `2 + 2 = 4`. -/
theorem joint_expected_goals_invariant_witness :
    (enrich fetch_ten_five match_ab).joint_expected_goals = some 4 := by
  have hf : ∀ (t s : Int) (ts : TeamStats), fetch_ten_five t s = some ts →
      ts.team_id = t ∧ ts.season_id = s := by
    intro t s ts h
    unfold fetch_ten_five at h
    injection h with h
    subst h
    exact ⟨rfl, rfl⟩
  have hr : enrich fetch_ten_five match_ab ∈
      compute_expected_goals_for_matches fetch_ten_five [match_ab] := by
    rw [compute_eq_map]
    exact List.mem_singleton.mpr rfl
  have hexph : (enrich fetch_ten_five match_ab).exp_goals_home = some 2 := by
    show (fetch_ten_five match_ab.home_team_id match_ab.season_id).bind
      TeamStats.goals_per_match = some 2
    norm_num [fetch_ten_five, TeamStats.goals_per_match]
  have hexpa : (enrich fetch_ten_five match_ab).exp_goals_away = some 2 := by
    show (fetch_ten_five match_ab.away_team_id match_ab.season_id).bind
      TeamStats.goals_per_match = some 2
    norm_num [fetch_ten_five, TeamStats.goals_per_match]
  have h := (joint_expected_goals_invariant fetch_ten_five hf [match_ab]
    (enrich fetch_ten_five match_ab) hr).2.1 2 2 hexph hexpa
  rw [h]
  norm_num

/-- C10: a defined joint value forces both stats records present with
strictly positive matches played, so the four stats cells of the CSV row and
the four stats fields of the JSON object are the present-stats renderings,
never the missing-stats fallback. -/
theorem joint_defined_stats_present (fetch : Int → Int → Option TeamStats)
    (ms : List MatchInfo) (r : MatchWithExpectedGoals)
    (hr : r ∈ compute_expected_goals_for_matches fetch ms)
    (hj : r.joint_expected_goals.isSome) :
    ∃ hs ast : TeamStats,
      r.home_stats = some hs ∧ r.away_stats = some ast ∧
      0 < hs.matches_played ∧ 0 < ast.matches_played ∧
      (csv_row r)[6]? = some (toString hs.goals_scored) ∧
      (csv_row r)[7]? = some (toString hs.matches_played) ∧
      (csv_row r)[8]? = some (toString ast.goals_scored) ∧
      (csv_row r)[9]? = some (toString ast.matches_played) ∧
      (json_row r).home_goals_scored = some hs.goals_scored ∧
      (json_row r).home_matches_played = some hs.matches_played ∧
      (json_row r).away_goals_scored = some ast.goals_scored ∧
      (json_row r).away_matches_played = some ast.matches_played := by
  rw [compute_eq_map] at hr
  obtain ⟨m, hm, rfl⟩ := List.mem_map.mp hr
  rw [show (enrich fetch m).joint_expected_goals =
      match (enrich fetch m).exp_goals_home, (enrich fetch m).exp_goals_away with
      | some a, some b => some (a + b)
      | _, _ => none from rfl] at hj
  cases hh : (enrich fetch m).exp_goals_home with
  | none => rw [hh] at hj; simp at hj
  | some a =>
    cases ha : (enrich fetch m).exp_goals_away with
    | none => rw [hh, ha] at hj; simp at hj
    | some b =>
      have hbh : (fetch m.home_team_id m.season_id).bind TeamStats.goals_per_match
          = some a := hh
      have hba : (fetch m.away_team_id m.season_id).bind TeamStats.goals_per_match
          = some b := ha
      obtain ⟨hs, hhs, hmph, _⟩ := bind_gpm_some hbh
      obtain ⟨ast, hast, hmpa, _⟩ := bind_gpm_some hba
      have ehs : (enrich fetch m).home_stats = some hs := hhs
      have east : (enrich fetch m).away_stats = some ast := hast
      refine ⟨hs, ast, ehs, east, hmph, hmpa, ?_, ?_, ?_, ?_, ?_, ?_, ?_, ?_⟩ <;>
        simp [csv_row, json_row, int_cell, ehs, east]

/-- Witness for C10: the concrete enriched match has a defined joint value,
and its stats cells are the rendered 10-goals-5-matches figures. -/
theorem joint_defined_stats_present_witness :
    ∃ hs ast : TeamStats,
      (enrich fetch_ten_five match_ab).home_stats = some hs ∧
      (enrich fetch_ten_five match_ab).away_stats = some ast ∧
      0 < hs.matches_played ∧ 0 < ast.matches_played ∧
      (csv_row (enrich fetch_ten_five match_ab))[6]? =
        some (toString hs.goals_scored) ∧
      (csv_row (enrich fetch_ten_five match_ab))[7]? =
        some (toString hs.matches_played) ∧
      (csv_row (enrich fetch_ten_five match_ab))[8]? =
        some (toString ast.goals_scored) ∧
      (csv_row (enrich fetch_ten_five match_ab))[9]? =
        some (toString ast.matches_played) ∧
      (json_row (enrich fetch_ten_five match_ab)).home_goals_scored =
        some hs.goals_scored ∧
      (json_row (enrich fetch_ten_five match_ab)).home_matches_played =
        some hs.matches_played ∧
      (json_row (enrich fetch_ten_five match_ab)).away_goals_scored =
        some ast.goals_scored ∧
      (json_row (enrich fetch_ten_five match_ab)).away_matches_played =
        some ast.matches_played := by
  have hr : enrich fetch_ten_five match_ab ∈
      compute_expected_goals_for_matches fetch_ten_five [match_ab] := by
    rw [compute_eq_map]
    exact List.mem_singleton.mpr rfl
  exact joint_defined_stats_present fetch_ten_five [match_ab]
    (enrich fetch_ten_five match_ab) hr (by rfl)

/-! ### Fetch-log lemmas -/

/-- Inserting an entry never removes an existing key. -/
theorem cache_find_cons_isSome {c : Cache} {k' k : CacheKey} {v : Option TeamStats}
    (h : (cache_find c k').isSome) :
    (cache_find ((k, v) :: c) k').isSome := by
  rw [cache_find]
  split <;> simp [h]

/-- Running `ensure_cached` keeps the log duplicate-free and backed by the cache:
it fetches only keys that are not yet cached, and stores the answer —
an explicit `none` included — before any later occurrence of the key. -/
theorem ensure_cached_loginv {fetch : Int → Int → Option TeamStats}
    {st : Cache × List CacheKey} {k : CacheKey} (h : LogInv st.1 st.2) :
    LogInv (ensure_cached fetch st k).1 (ensure_cached fetch st k).2 := by
  obtain ⟨hnd, hmem⟩ := h
  unfold ensure_cached
  split
  · exact ⟨hnd, hmem⟩
  next hn =>
    refine ⟨?_, ?_⟩
    · have hk : k ∉ st.2 := fun hk => hn (hmem k hk)
      simp [List.nodup_append, hnd, hk]
    · intro k' hk'
      rcases List.mem_append.mp hk' with h1 | h1
      · exact cache_find_cons_isSome (hmem k' h1)
      · have hkk : k' = k := by simpa using h1
        subst hkk
        simp [cache_find]

/-- The loop body keeps the fetch-log invariant. -/
theorem process_match_loginv {fetch : Int → Int → Option TeamStats}
    {st : Cache × List CacheKey} {m : MatchInfo} (h : LogInv st.1 st.2) :
    LogInv (process_match fetch st m).1.1 (process_match fetch st m).1.2 :=
  ensure_cached_loginv (ensure_cached_loginv h)

/-- The whole loop keeps the fetch-log invariant. -/
theorem compute_go_loginv {fetch : Int → Int → Option TeamStats} :
    ∀ (ms : List MatchInfo) (st : Cache × List CacheKey),
      LogInv st.1 st.2 →
      LogInv (compute_go fetch ms st).2.1 (compute_go fetch ms st).2.2 := by
  intro ms
  induction ms with
  | nil => intro st h; exact h
  | cons m rest ih => intro st h; exact ih _ (process_match_loginv h)

/-- The whole loop keeps the cache faithful. -/
theorem compute_go_faithful {fetch : Int → Int → Option TeamStats} :
    ∀ (ms : List MatchInfo) (st : Cache × List CacheKey),
      CacheFaithful fetch st.1 →
      CacheFaithful fetch (compute_go fetch ms st).2.1 := by
  intro ms
  induction ms with
  | nil => intro st h; exact h
  | cons m rest ih => intro st h; exact ih _ (process_match_fst_faithful h)

/-- C4: over a whole run, no key is fetched twice (the log of issued
statistics lookups is duplicate-free, so each distinct (team, season) pair is
fetched at most once), and every fetched key — those whose lookup returned
nothing included — ends up stored in the cache with exactly the lookup's
answer. -/
theorem stats_fetched_once (fetch : Int → Int → Option TeamStats)
    (ms : List MatchInfo) :
    (compute_fetch_log fetch ms).Nodup ∧
    (∀ k : CacheKey,
      @List.count CacheKey instBEqOfDecidableEq k (compute_fetch_log fetch ms) ≤ 1) ∧
    (∀ k ∈ compute_fetch_log fetch ms,
      cache_find (compute_final_cache fetch ms) k = some (fetch k.1 k.2)) := by
  have hlog : LogInv (compute_go fetch ms ([], [])).2.1
      (compute_go fetch ms ([], [])).2.2 :=
    compute_go_loginv ms ([], []) ⟨List.nodup_nil, by simp [cache_find]⟩
  have hfaith : CacheFaithful fetch (compute_go fetch ms ([], [])).2.1 :=
    compute_go_faithful ms ([], []) (by intro p hp; simp at hp)
  refine ⟨hlog.1, fun k => List.nodup_iff_count_le_one.mp hlog.1 k, ?_⟩
  intro k hk
  obtain ⟨v, hv⟩ := Option.isSome_iff_exists.mp (hlog.2 k hk)
  rw [show compute_final_cache fetch ms = (compute_go fetch ms ([], [])).2.1
    from rfl, hv, cache_find_faithful hfaith hv]

/-- Witness for C4: running on the same match twice, the home key `(1, 100)`
is in the log, and the cache stores the lookup's answer for it. -/
theorem stats_fetched_once_witness :
    cache_find (compute_final_cache fetch_ten_five [match_ab, match_ab]) (1, 100) =
      some (fetch_ten_five 1 100) :=
  (stats_fetched_once fetch_ten_five [match_ab, match_ab]).2.2 (1, 100) (by decide)

/-! ### Retry-loop lemmas -/

/-- When the next `n` attempts all fail, the loop returns `none` after
exactly `n` attempts, sleeping `slp` after each failure. -/
theorem get_json_go_all_fail {α : Type} (env : Nat → Option α) (slp : ℚ) :
    ∀ (n i : Nat), (∀ j, j < n → env (i + j) = none) →
      get_json_go env slp n i = (none, all_fail_trace α slp n) := by
  intro n
  induction n with
  | zero => intro i h; rfl
  | succ n ih =>
    intro i h
    have h0 : env i = none := by simpa using h 0 (Nat.succ_pos n)
    have hrest : ∀ j, j < n → env (i + 1 + j) = none := by
      intro j hj
      have hx := h (j + 1) (by omega)
      rwa [show i + (j + 1) = i + 1 + j by omega] at hx
    simp [get_json_go, h0, all_fail_trace, ih (i + 1) hrest]

/-- When the `k`-th attempt is the first to succeed (`k < n`), the loop
returns its body, after `k` failed attempts each followed by a sleep. -/
theorem get_json_go_success {α : Type} (env : Nat → Option α) (slp : ℚ) :
    ∀ (k n i : Nat) (b : α), k < n → (∀ j, j < k → env (i + j) = none) →
      env (i + k) = some b →
      get_json_go env slp n i =
        (some b, all_fail_trace α slp k ++ [FetchEvent.attempt (some b)]) := by
  intro k
  induction k with
  | zero =>
    intro n i b hn hfail hs
    obtain ⟨n', rfl⟩ : ∃ n', n = n' + 1 := ⟨n - 1, by omega⟩
    have hs0 : env i = some b := by simpa using hs
    simp [get_json_go, hs0, all_fail_trace]
  | succ k ih =>
    intro n i b hn hfail hs
    obtain ⟨n', rfl⟩ : ∃ n', n = n' + 1 := ⟨n - 1, by omega⟩
    have h0 : env i = none := by simpa using hfail 0 (Nat.succ_pos k)
    have hfail' : ∀ j, j < k → env (i + 1 + j) = none := by
      intro j hj
      have hx := hfail (j + 1) (by omega)
      rwa [show i + (j + 1) = i + 1 + j by omega] at hx
    have hs' : env (i + 1 + k) = some b := by
      rwa [show i + (k + 1) = i + 1 + k by omega] at hs
    simp [get_json_go, h0, all_fail_trace, ih n' (i + 1) b (by omega) hfail' hs']

/-- An all-fail trace records exactly `n` attempts. -/
theorem count_attempts_all_fail (α : Type) (slp : ℚ) :
    ∀ n : Nat, count_attempts (all_fail_trace α slp n) = n := by
  intro n
  induction n with
  | zero => rfl
  | succ n ih =>
    simp only [all_fail_trace, count_attempts, List.filter_cons] at ih ⊢
    simp_all

/-- C7: when every attempt fails, `get_json` makes exactly `retries` attempts
(default 3), sleeping the fixed `slp` (default 0.5) after each failed
attempt — in particular between any two consecutive attempts — and returns
`none`; when attempt `k` is the first success it returns that decoded body
immediately. -/
theorem get_json_retry_contract {α : Type} (env : Nat → Option α)
    (retries : Nat) (slp : ℚ) :
    ((∀ i, i < retries → env i = none) →
      get_json env retries slp = (none, all_fail_trace α slp retries) ∧
      count_attempts (get_json env retries slp).2 = retries) ∧
    (∀ (k : Nat) (b : α), k < retries → (∀ j, j < k → env j = none) →
      env k = some b →
      get_json env retries slp =
        (some b, all_fail_trace α slp k ++ [FetchEvent.attempt (some b)])) ∧
    default_retries = 3 ∧ default_sleep = 1 / 2 := by
  refine ⟨fun h => ?_, fun k b hk hfail hs => ?_, rfl, rfl⟩
  · have hall := get_json_go_all_fail env slp retries 0
      (by intro j hj; simpa using h j hj)
    rw [get_json, hall]
    exact ⟨rfl, count_attempts_all_fail α slp retries⟩
  · exact get_json_go_success env slp k retries 0 b hk
      (by intro j hj; simpa using hfail j hj) (by simpa using hs)

/-- Witness for C7: three failures yield `none` with three attempt/sleep
pairs; a success on attempt index 1 yields the body after one failure. -/
theorem get_json_retry_contract_witness :
    get_json env_fail 3 (1 / 2) = (none, all_fail_trace Unit (1 / 2) 3) ∧
    get_json env_succ 3 (1 / 2) =
      (some 42, all_fail_trace Nat (1 / 2) 1 ++ [FetchEvent.attempt (some 42)]) := by
  constructor
  · exact ((get_json_retry_contract env_fail 3 (1 / 2)).1 (fun i _ => rfl)).1
  · refine (get_json_retry_contract env_succ 3 (1 / 2)).2.1 1 42 (by omega) ?_ rfl
    intro j hj
    have hj0 : j = 0 := by omega
    subst hj0
    rfl

end Handball
